import Mathlib

/-! Verification of an off-policy actor-critic training engine with two
variants: a baseline single-critic algorithm (DDPG.py) and a twin-critic,
delayed-update algorithm (TD3.py).  Network parameters are lists of real
numbers, a linear layer is an explicit matrix-vector product, and the two
optimizers (constructed over exactly one network's parameters each) are
abstract step functions receiving the loss as a function of that network's
own parameters only.  Randomness (replay sampling, target-smoothing noise)
is passed in as an oracle indexed by the loop counter. -/

noncomputable section

namespace RLImpl

/-- Rectified linear unit, the semantics of F.relu. -/
def relu (x : ℝ) : ℝ := max 0 x

/-- Dot product of two parameter vectors (zip-with-multiply, then sum). -/
def dot (a b : List ℝ) : ℝ := (List.zipWith (fun p q => p * q) a b).sum

/-- A fully connected layer nn.Linear: each output component is the dot
product of a weight row with the input, plus the matching bias entry. -/
def linear (w : List (List ℝ)) (b : List ℝ) (x : List ℝ) : List ℝ :=
  List.zipWith (fun row bi => dot row x + bi) w b

/-- torch.clamp: clamp a scalar into the interval from lo to hi. -/
def clamp (lo hi x : ℝ) : ℝ := min (max x lo) hi

/-- Elementwise clamp of a vector, Tensor.clamp. -/
def clampVec (lo hi : ℝ) (v : List ℝ) : List ℝ := v.map (clamp lo hi)

/-- Elementwise sum of two vectors. -/
def addVec (a b : List ℝ) : List ℝ := List.zipWith (fun p q => p + q) a b

/-- Mean of a list of reals, Tensor.mean. -/
def mean (l : List ℝ) : ℝ := l.sum / l.length

/-- F.mse_loss with the default mean reduction: mean squared difference of
prediction and target lists. -/
def mseLoss (pred tgt : List ℝ) : ℝ :=
  (List.zipWith (fun a b => (a - b) ^ 2) pred tgt).sum / pred.length

/-- One transition of the replay buffer: the tuple (x, u, r, d, y) sampled
by uniform_sample, with done the stored terminal flag d (1.0 when the
transition was terminal, 0.0 otherwise). -/
structure Transition where
  state : List ℝ
  action : List ℝ
  reward : ℝ
  done : ℝ
  next_state : List ℝ

/-- The Actor network, defined identically in DDPG.py and TD3.py:
three linear layers l1, l2, l3. -/
structure Actor where
  l1w : List (List ℝ)
  l1b : List ℝ
  l2w : List (List ℝ)
  l2b : List ℝ
  l3w : List (List ℝ)
  l3b : List ℝ

/-- Actor.forward: relu after l1 and l2, then max_action times tanh of the
l3 output (both files, lines 23-28). -/
def Actor.forward (max_action : ℝ) (p : Actor) (x : List ℝ) : List ℝ :=
  let h1 := (linear p.l1w p.l1b x).map relu
  let h2 := (linear p.l2w p.l2b h1).map relu
  (linear p.l3w p.l3b h2).map (fun v => max_action * Real.tanh v)

/-- Polyak blend of one parameter vector:
tau times live plus (1 - tau) times previous target, elementwise. -/
def softUpdateVec (tau : ℝ) (live tgt : List ℝ) : List ℝ :=
  List.zipWith (fun p t => tau * p + (1 - tau) * t) live tgt

/-- Polyak blend of a weight matrix, row by row. -/
def softUpdateMat (tau : ℝ) (live tgt : List (List ℝ)) : List (List ℝ) :=
  List.zipWith (softUpdateVec tau) live tgt

/-- Polyak blend of a scalar parameter. -/
def softUpdateScalar (tau live tgt : ℝ) : ℝ := tau * live + (1 - tau) * tgt

/-- Soft update of every Actor parameter tensor (the zip over
actor.parameters() in both train loops). -/
def Actor.softUpdate (tau : ℝ) (live tgt : Actor) : Actor where
  l1w := softUpdateMat tau live.l1w tgt.l1w
  l1b := softUpdateVec tau live.l1b tgt.l1b
  l2w := softUpdateMat tau live.l2w tgt.l2w
  l2b := softUpdateVec tau live.l2b tgt.l2b
  l3w := softUpdateMat tau live.l3w tgt.l3w
  l3b := softUpdateVec tau live.l3b tgt.l3b

namespace TD3

/-- The twin critic of TD3.py: two independently parameterized heads,
l1-l2-l3 for Q1 and l4-l5-l6 for Q2, each head ending in a single-output
linear layer (a weight row and a scalar bias). -/
structure Critic where
  l1w : List (List ℝ)
  l1b : List ℝ
  l2w : List (List ℝ)
  l2b : List ℝ
  l3w : List ℝ
  l3b : ℝ
  l4w : List (List ℝ)
  l4b : List ℝ
  l5w : List (List ℝ)
  l5b : List ℝ
  l6w : List ℝ
  l6b : ℝ

/-- Critic.forward of TD3.py: concatenate state and action at the input,
run both heads, return the pair (Q1, Q2). -/
def Critic.forward (c : Critic) (x u : List ℝ) : ℝ × ℝ :=
  let xu := x ++ u
  let x1 := (linear c.l1w c.l1b xu).map relu
  let x1' := (linear c.l2w c.l2b x1).map relu
  let x2 := (linear c.l4w c.l4b xu).map relu
  let x2' := (linear c.l5w c.l5b x2).map relu
  (dot c.l3w x1' + c.l3b, dot c.l6w x2' + c.l6b)

/-- Critic.Q1 of TD3.py: evaluate only the first head. -/
def Critic.Q1 (c : Critic) (x u : List ℝ) : ℝ :=
  let xu := x ++ u
  let x1 := (linear c.l1w c.l1b xu).map relu
  let x1' := (linear c.l2w c.l2b x1).map relu
  dot c.l3w x1' + c.l3b

/-- Soft update of every twin-critic parameter tensor (the zip over
critic.parameters() in TD3.train). -/
def Critic.softUpdate (tau : ℝ) (live tgt : Critic) : Critic where
  l1w := softUpdateMat tau live.l1w tgt.l1w
  l1b := softUpdateVec tau live.l1b tgt.l1b
  l2w := softUpdateMat tau live.l2w tgt.l2w
  l2b := softUpdateVec tau live.l2b tgt.l2b
  l3w := softUpdateVec tau live.l3w tgt.l3w
  l3b := softUpdateScalar tau live.l3b tgt.l3b
  l4w := softUpdateMat tau live.l4w tgt.l4w
  l4b := softUpdateVec tau live.l4b tgt.l4b
  l5w := softUpdateMat tau live.l5w tgt.l5w
  l5b := softUpdateVec tau live.l5b tgt.l5b
  l6w := softUpdateVec tau live.l6w tgt.l6w
  l6b := softUpdateScalar tau live.l6b tgt.l6b

/-- The four networks held by a TD3 object: live and target actor, live
and target twin critic. -/
structure State where
  actor : Actor
  actor_target : Actor
  critic : Critic
  critic_target : Critic

/-- TD3.__init__ (lines 72-79): build the live networks and copy their
state dicts into the freshly built targets. -/
def init (a : Actor) (c : Critic) : State :=
  { actor := a, actor_target := a, critic := c, critic_target := c }

/-- The hyperparameters of TD3.train (its keyword arguments). -/
structure Config where
  max_action : ℝ
  discount : ℝ
  tau : ℝ
  policy_noise : ℝ
  noise_clip : ℝ
  policy_freq : ℕ

/-- The two Adam optimizers of a TD3 object, abstracted as step functions.
Each was constructed over exactly one network's parameters, so a step
maps that network's parameters to new ones, given the loss as a function
of those parameters alone (everything else in the loss is a captured
constant, which is what zero_grad-backward-step computes gradients of). -/
structure Opt where
  criticStep : Critic → (Critic → ℝ) → Critic
  actorStep : Actor → (Actor → ℝ) → Actor

/-- TD3.select_action: a forward pass of the live actor on the state. -/
def select_action (cfg : Config) (s : State) (state : List ℝ) : List ℝ :=
  Actor.forward cfg.max_action s.actor state

/-- The smoothed next action of TD3.train lines 100-102: target-actor
proposal plus noise clamped to the noise_clip band, the sum clamped to
the action range. -/
def next_action (cfg : Config) (aT : Actor) (ns noise : List ℝ) : List ℝ :=
  clampVec (-cfg.max_action) cfg.max_action
    (addVec (Actor.forward cfg.max_action aT ns)
      (clampVec (-cfg.noise_clip) cfg.noise_clip noise))

/-- The per-sample target value of TD3.train lines 105-107: reward plus
mask (1 - d) times discount times the minimum of the two target-critic
heads at (next_state, smoothed next action); a detached constant. -/
def targetQ (cfg : Config) (aT : Actor) (cT : Critic) (tr : Transition)
    (noise : List ℝ) : ℝ :=
  let na := next_action cfg aT tr.next_state noise
  let tq := Critic.forward cT tr.next_state na
  tr.reward + (1 - tr.done) * cfg.discount * min tq.1 tq.2

/-- The critic loss of TD3.train line 113 as a function of the live
critic parameters: sum of each head's MSE against the one target list
(which depends only on the target networks, never on c). -/
def criticLoss (cfg : Config) (aT : Actor) (cT : Critic)
    (batch : List Transition) (noises : List (List ℝ)) (c : Critic) : ℝ :=
  let tgts := List.zipWith (targetQ cfg aT cT) batch noises
  mseLoss (batch.map fun tr => (Critic.forward c tr.state tr.action).1) tgts +
    mseLoss (batch.map fun tr => (Critic.forward c tr.state tr.action).2) tgts

/-- The actor loss of TD3.train line 124 as a function of the live actor
parameters: negated mean of Q1 at (state, actor(state)), with the live
critic parameters captured as constants. -/
def actorLoss (cfg : Config) (c : Critic) (batch : List Transition)
    (a : Actor) : ℝ :=
  -(mean (batch.map fun tr =>
    Critic.Q1 c tr.state (Actor.forward cfg.max_action a tr.state)))

/-- Lines 116-118: one critic optimizer step; only the critic field of the
engine changes. -/
def criticPhase (cfg : Config) (opt : Opt) (batch : List Transition)
    (noises : List (List ℝ)) (s : State) : State :=
  { s with critic :=
      opt.criticStep s.critic (criticLoss cfg s.actor_target s.critic_target batch noises) }

/-- Lines 127-129: one actor optimizer step; only the actor field of the
engine changes. -/
def actorPhase (cfg : Config) (opt : Opt) (batch : List Transition)
    (s : State) : State :=
  { s with actor := opt.actorStep s.actor (actorLoss cfg s.critic batch) }

/-- Lines 132-136: Polyak blend of both target networks toward the
just-updated live networks. -/
def targetPhase (cfg : Config) (s : State) : State :=
  { s with
      critic_target := Critic.softUpdate cfg.tau s.critic s.critic_target
      actor_target := Actor.softUpdate cfg.tau s.actor s.actor_target }

/-- One loop iteration of TD3.train: always the critic phase; the actor
phase and target phase only when the loop index it satisfies
it % policy_freq == 0 (line 121).  The oracle sample yields the batch and
the drawn smoothing noise of that iteration. -/
def trainIter (cfg : Config) (opt : Opt)
    (sample : ℕ → List Transition × List (List ℝ)) (it : ℕ) (s : State) : State :=
  let s1 := criticPhase cfg opt (sample it).1 (sample it).2 s
  if it % cfg.policy_freq = 0 then
    targetPhase cfg (actorPhase cfg opt (sample it).1 s1)
  else s1

/-- The loop of TD3.train run for n iterations with loop indices
start, start + 1, ... (the code always starts at 0; the start argument
lets a single definition also express hypothetical continuations). -/
def trainFrom (cfg : Config) (opt : Opt)
    (sample : ℕ → List Transition × List (List ℝ)) :
    ℕ → ℕ → State → State
  | _, 0, s => s
  | start, n + 1, s =>
      trainFrom cfg opt sample (start + 1) n (trainIter cfg opt sample start s)

/-- TD3.train: for it in range(iterations) — the loop index is local to
the call and starts at 0 every time. -/
def train (cfg : Config) (opt : Opt)
    (sample : ℕ → List Transition × List (List ℝ))
    (iterations : ℕ) (s : State) : State :=
  trainFrom cfg opt sample 0 iterations s

/-- Modelled from the spec: the spec's TrainingEngine carries a
persistent iteration counter, created once at construction and never
reset, which the delayed-update gate reads and which successive train
calls continue from.  No such counter exists in TD3.py; this reference
model exists to compare that description against the code. -/
def trainPersistentCounter (cfg : Config) (opt : Opt)
    (sample : ℕ → List Transition × List (List ℝ))
    (iterations : ℕ) (sc : State × ℕ) : State × ℕ :=
  (trainFrom cfg opt sample sc.2 iterations sc.1, sc.2 + iterations)

/-- TD3.save: persist the live actor and live critic state dicts as two
artifacts. -/
def save (s : State) : Actor × Critic := (s.actor, s.critic)

/-- TD3.load: restore the two persisted state dicts into the live actor
and live critic only; the targets are untouched. -/
def load (saved : Actor × Critic) (s : State) : State :=
  { s with actor := saved.1, critic := saved.2 }

end TD3

namespace DDPG

/-- The single critic of DDPG.py: state through l1, then the action
concatenated after the first hidden layer, then l2 and a single-output
l3 (a weight row and a scalar bias). -/
structure Critic where
  l1w : List (List ℝ)
  l1b : List ℝ
  l2w : List (List ℝ)
  l2b : List ℝ
  l3w : List ℝ
  l3b : ℝ

/-- Critic.forward of DDPG.py lines 40-44. -/
def Critic.forward (c : Critic) (x u : List ℝ) : ℝ :=
  let x1 := (linear c.l1w c.l1b x).map relu
  let x2 := (linear c.l2w c.l2b (x1 ++ u)).map relu
  dot c.l3w x2 + c.l3b

/-- Soft update of every single-critic parameter tensor. -/
def Critic.softUpdate (tau : ℝ) (live tgt : Critic) : Critic where
  l1w := softUpdateMat tau live.l1w tgt.l1w
  l1b := softUpdateVec tau live.l1b tgt.l1b
  l2w := softUpdateMat tau live.l2w tgt.l2w
  l2b := softUpdateVec tau live.l2b tgt.l2b
  l3w := softUpdateVec tau live.l3w tgt.l3w
  l3b := softUpdateScalar tau live.l3b tgt.l3b

/-- The four networks held by a DDPG object. -/
structure State where
  actor : Actor
  actor_target : Actor
  critic : Critic
  critic_target : Critic

/-- DDPG.__init__ (lines 50-57): build the live networks and copy their
state dicts into the freshly built targets. -/
def init (a : Actor) (c : Critic) : State :=
  { actor := a, actor_target := a, critic := c, critic_target := c }

/-- The hyperparameters of DDPG.train. -/
structure Config where
  max_action : ℝ
  discount : ℝ
  tau : ℝ

/-- The two Adam optimizers of a DDPG object, abstracted as in TD3.Opt. -/
structure Opt where
  criticStep : Critic → (Critic → ℝ) → Critic
  actorStep : Actor → (Actor → ℝ) → Actor

/-- DDPG.select_action: a forward pass of the live actor on the state. -/
def select_action (cfg : Config) (s : State) (state : List ℝ) : List ℝ :=
  Actor.forward cfg.max_action s.actor state

/-- The per-sample target value of DDPG.train lines 77-78: reward plus
mask (1 - d) times discount times the target critic at (next_state,
target_actor(next_state)); a detached constant. -/
def targetQ (cfg : Config) (aT : Actor) (cT : Critic) (tr : Transition) : ℝ :=
  tr.reward + (1 - tr.done) * cfg.discount *
    Critic.forward cT tr.next_state (Actor.forward cfg.max_action aT tr.next_state)

/-- The critic loss of DDPG.train line 84 as a function of the live
critic parameters: MSE of the single live output against the target list
(which depends only on the target networks, never on c). -/
def criticLoss (cfg : Config) (aT : Actor) (cT : Critic)
    (batch : List Transition) (c : Critic) : ℝ :=
  mseLoss (batch.map fun tr => Critic.forward c tr.state tr.action)
    (batch.map (targetQ cfg aT cT))

/-- The actor loss of DDPG.train line 92 as a function of the live actor
parameters. -/
def actorLoss (cfg : Config) (c : Critic) (batch : List Transition)
    (a : Actor) : ℝ :=
  -(mean (batch.map fun tr =>
    Critic.forward c tr.state (Actor.forward cfg.max_action a tr.state)))

/-- Lines 87-89: one critic optimizer step. -/
def criticPhase (cfg : Config) (opt : Opt) (batch : List Transition)
    (s : State) : State :=
  { s with critic :=
      opt.criticStep s.critic (criticLoss cfg s.actor_target s.critic_target batch) }

/-- Lines 95-97: one actor optimizer step. -/
def actorPhase (cfg : Config) (opt : Opt) (batch : List Transition)
    (s : State) : State :=
  { s with actor := opt.actorStep s.actor (actorLoss cfg s.critic batch) }

/-- Lines 100-104: Polyak blend of both target networks. -/
def targetPhase (cfg : Config) (s : State) : State :=
  { s with
      critic_target := Critic.softUpdate cfg.tau s.critic s.critic_target
      actor_target := Actor.softUpdate cfg.tau s.actor s.actor_target }

/-- One loop iteration of DDPG.train: critic step, actor step and target
blend on every iteration, in that order. -/
def trainIter (cfg : Config) (opt : Opt) (sample : ℕ → List Transition)
    (it : ℕ) (s : State) : State :=
  targetPhase cfg (actorPhase cfg opt (sample it)
    (criticPhase cfg opt (sample it) s))

/-- The loop of DDPG.train run for n iterations. -/
def trainFrom (cfg : Config) (opt : Opt) (sample : ℕ → List Transition) :
    ℕ → ℕ → State → State
  | _, 0, s => s
  | start, n + 1, s =>
      trainFrom cfg opt sample (start + 1) n (trainIter cfg opt sample start s)

/-- DDPG.train: for it in range(iterations). -/
def train (cfg : Config) (opt : Opt) (sample : ℕ → List Transition)
    (iterations : ℕ) (s : State) : State :=
  trainFrom cfg opt sample 0 iterations s

/-- DDPG.save: persist the live actor and live critic state dicts. -/
def save (s : State) : Actor × Critic := (s.actor, s.critic)

/-- DDPG.load: restore into the live networks only. -/
def load (saved : Actor × Critic) (s : State) : State :=
  { s with actor := saved.1, critic := saved.2 }

end DDPG

/-- A concrete actor parameter set with empty layers, for witnesses. -/
def a0 : Actor := Actor.mk [] [] [] [] [] []

/-- A concrete twin-critic parameter set, for witnesses. -/
def c30 : TD3.Critic := TD3.Critic.mk [] [] [] [] [] 0 [] [] [] [] [] 0

/-- A concrete single-critic parameter set, for witnesses. -/
def cD0 : DDPG.Critic := DDPG.Critic.mk [] [] [] [] [] 0

/-- A concrete TD3 configuration with policy_freq 2, for witnesses. -/
def cfg0 : TD3.Config := TD3.Config.mk 1 (99 / 100) (5 / 1000) (1 / 5) (1 / 2) 2

/-- A concrete DDPG configuration, for witnesses. -/
def cfgD0 : DDPG.Config := DDPG.Config.mk 1 (99 / 100) (1 / 1000)

/-- A freshly constructed TD3 engine, for witnesses. -/
def s0 : TD3.State := TD3.init a0 c30

/-- A freshly constructed DDPG engine, for witnesses. -/
def sD0 : DDPG.State := DDPG.init a0 cD0

/-- A concrete sampling oracle returning an empty batch, for witnesses. -/
def sample0 : ℕ → List Transition × List (List ℝ) := fun _ => ([], [])

/-- A concrete optimizer oracle whose critic step is the identity and
whose actor step prepends an entry to the l1 bias (so an actor step is
always visible in the parameters). -/
def optP : TD3.Opt :=
  TD3.Opt.mk (fun c _ => c) (fun a _ => { a with l1b := 0 :: a.l1b })

/-- A concrete optimizer oracle whose critic and actor steps both prepend
an entry to the respective l1 bias, so every optimizer step strictly
changes the parameters. -/
def optE : TD3.Opt :=
  TD3.Opt.mk (fun c _ => { c with l1b := 0 :: c.l1b })
    (fun a _ => { a with l1b := 0 :: a.l1b })

/-- Reading an in-range position of a zipWith applies the function to the
entries of the two lists at that position. -/
theorem zipWith_getD (f : ℝ → ℝ → ℝ) (l : List ℝ) : ∀ (t : List ℝ) (i : ℕ),
    i < l.length → i < t.length →
    (List.zipWith f l t).getD i 0 = f (l.getD i 0) (t.getD i 0) := by
  induction l with
  | nil => intro t i hl _; simp at hl
  | cons a l ih =>
    intro t i _ ht
    cases t with
    | nil => simp at ht
    | cons b t =>
      cases i with
      | zero => rfl
      | succ i =>
        simp only [List.zipWith_cons_cons, List.getD_cons_succ]
        exact ih t i (by simp_all) (by simpa using ht)

/-- A soft update with rate 1 replaces the target vector by the live one. -/
theorem softUpdateVec_one (l : List ℝ) : ∀ t : List ℝ,
    l.length = t.length → softUpdateVec 1 l t = l := by
  induction l with
  | nil => intro t _; rfl
  | cons a l ih =>
    intro t h
    cases t with
    | nil => simp at h
    | cons b t =>
      simp only [softUpdateVec, List.zipWith_cons_cons]
      rw [show (1 : ℝ) * a + (1 - 1) * b = a by ring]
      exact congrArg (List.cons a) (ih t (by simpa using h))

/-- A soft update with rate 0 leaves the target vector unchanged. -/
theorem softUpdateVec_zero (l : List ℝ) : ∀ t : List ℝ,
    l.length = t.length → softUpdateVec 0 l t = t := by
  induction l with
  | nil =>
    intro t h
    cases t with
    | nil => rfl
    | cons b t => simp at h
  | cons a l ih =>
    intro t h
    cases t with
    | nil => simp at h
    | cons b t =>
      simp only [softUpdateVec, List.zipWith_cons_cons]
      rw [show (0 : ℝ) * a + (1 - 0) * b = b by ring]
      exact congrArg (List.cons b) (ih t (by simpa using h))

/-- The hyperbolic tangent is bounded by 1 in absolute value. -/
theorem abs_tanh_le_one (x : ℝ) : |Real.tanh x| ≤ 1 := by
  rw [Real.tanh_eq_sinh_div_cosh, abs_div, abs_of_pos (Real.cosh_pos x),
    div_le_one (Real.cosh_pos x)]
  nlinarith [sq_abs (Real.sinh x), Real.sinh_sq x, abs_nonneg (Real.sinh x),
    Real.cosh_pos x]

/-- Every component of an actor forward pass (read with default 0) is
bounded by max_action in absolute value, for any parameters and input. -/
theorem forward_getD_abs_le (maxA : ℝ) (h : 0 ≤ maxA) (p : Actor)
    (x : List ℝ) (i : ℕ) : |(Actor.forward maxA p x).getD i 0| ≤ maxA := by
  unfold Actor.forward
  set v := linear p.l3w p.l3b
    ((linear p.l2w p.l2b ((linear p.l1w p.l1b x).map relu)).map relu) with hv
  by_cases hi : i < v.length
  · rw [List.getD_eq_getElem _ _ (by simpa using hi), List.getElem_map]
    rw [abs_mul, abs_of_nonneg h]
    calc maxA * |Real.tanh (v[i])| ≤ maxA * 1 :=
          mul_le_mul_of_nonneg_left (abs_tanh_le_one _) h
      _ = maxA := mul_one maxA
  · rw [List.getD_eq_default _ _ (by simpa using le_of_not_lt hi)]
    simpa using h

/-- Unrolling the TD3 training loop from the back: running n + 1
iterations is running n and then one more at loop index start + n. -/
theorem trainFrom_succ (cfg : TD3.Config) (opt : TD3.Opt)
    (sample : ℕ → List Transition × List (List ℝ)) :
    ∀ (n start : ℕ) (s : TD3.State),
    TD3.trainFrom cfg opt sample start (n + 1) s =
      TD3.trainIter cfg opt sample (start + n)
        (TD3.trainFrom cfg opt sample start n s) := by
  intro n
  induction n with
  | zero => intro start s; simp [TD3.trainFrom]
  | succ n ih =>
    intro start s
    show TD3.trainFrom cfg opt sample (start + 1) (n + 1)
      (TD3.trainIter cfg opt sample start s) = _
    rw [ih (start + 1)]
    rw [show start + 1 + n = start + (n + 1) by omega]
    rfl

/-- On a loop index the gate accepts, one TD3 iteration is the critic
phase, then the actor phase, then the target phase. -/
theorem trainIter_active (cfg : TD3.Config) (opt : TD3.Opt)
    (sample : ℕ → List Transition × List (List ℝ)) (it : ℕ) (s : TD3.State)
    (h : it % cfg.policy_freq = 0) :
    TD3.trainIter cfg opt sample it s =
      TD3.targetPhase cfg (TD3.actorPhase cfg opt (sample it).1
        (TD3.criticPhase cfg opt (sample it).1 (sample it).2 s)) := by
  simp [TD3.trainIter, h]

/-- On a loop index the gate rejects, one TD3 iteration is the critic
phase alone. -/
theorem trainIter_skip (cfg : TD3.Config) (opt : TD3.Opt)
    (sample : ℕ → List Transition × List (List ℝ)) (it : ℕ) (s : TD3.State)
    (h : ¬ it % cfg.policy_freq = 0) :
    TD3.trainIter cfg opt sample it s =
      TD3.criticPhase cfg opt (sample it).1 (sample it).2 s := by
  simp [TD3.trainIter, h]

/-- The number of multiples of k below n is the rounded-up quotient of n
by k. -/
theorem countP_mod_eq (k : ℕ) (hk : 1 ≤ k) : ∀ n : ℕ,
    (List.range n).countP (fun it => it % k == 0) = (n + k - 1) / k := by
  intro n
  induction n with
  | zero =>
    simp [Nat.div_eq_of_lt (show k - 1 < k by omega)]
  | succ n ih =>
    rw [List.range_succ, List.countP_append, ih]
    rw [show n + 1 + k - 1 = (n + k - 1) + 1 by omega, Nat.succ_div]
    rw [show n + k - 1 + 1 = n + k by omega]
    by_cases hm : n % k = 0 <;>
      simp [hm, List.countP_cons, Nat.dvd_add_self_right,
        Nat.dvd_iff_mod_eq_zero]

/-- C1: in the twin-critic variant, for every training iteration and every
sampled batch, the target is reward plus mask times discount times the
minimum of the two target-critic heads at (next_state, smoothed next
action); the smoothed next action is the target actor's proposal plus
noise clipped to the noise_clip band, clamped to the action range; this
single target list feeds both live heads, and the critic loss handed to
the critic optimizer is the sum of the two heads' MSE against it.  The
target depends only on the target networks and the batch, so it is a
constant of the live optimization (the detach of line 107). -/
theorem claim_C1 (cfg : TD3.Config) (opt : TD3.Opt)
    (sample : ℕ → List Transition × List (List ℝ))
    (aT : Actor) (cT : TD3.Critic) (tr : Transition) (noise : List ℝ)
    (batch : List Transition) (noises : List (List ℝ)) (c : TD3.Critic)
    (it : ℕ) (s : TD3.State) :
    TD3.targetQ cfg aT cT tr noise =
      tr.reward + (1 - tr.done) * cfg.discount *
        min (TD3.Critic.forward cT tr.next_state
              (TD3.next_action cfg aT tr.next_state noise)).1
            (TD3.Critic.forward cT tr.next_state
              (TD3.next_action cfg aT tr.next_state noise)).2 ∧
    TD3.next_action cfg aT tr.next_state noise =
      clampVec (-cfg.max_action) cfg.max_action
        (addVec (Actor.forward cfg.max_action aT tr.next_state)
          (clampVec (-cfg.noise_clip) cfg.noise_clip noise)) ∧
    TD3.criticLoss cfg aT cT batch noises c =
      mseLoss (batch.map fun t => (TD3.Critic.forward c t.state t.action).1)
          (List.zipWith (TD3.targetQ cfg aT cT) batch noises) +
        mseLoss (batch.map fun t => (TD3.Critic.forward c t.state t.action).2)
          (List.zipWith (TD3.targetQ cfg aT cT) batch noises) ∧
    (TD3.trainIter cfg opt sample it s).critic =
      opt.criticStep s.critic
        (TD3.criticLoss cfg s.actor_target s.critic_target
          (sample it).1 (sample it).2) := by
  refine ⟨rfl, rfl, rfl, ?_⟩
  by_cases h : it % cfg.policy_freq = 0 <;>
    simp [TD3.trainIter, h, TD3.criticPhase, TD3.actorPhase, TD3.targetPhase]

/-- C2: in the baseline variant, for every training iteration and every
sampled batch, the target is reward plus mask times discount times the
target critic at (next_state, target_actor(next_state)); the mask 1 - d
is 1 for non-terminal and 0 for terminal transitions, so a terminal
transition's target is just its reward; the critic loss handed to the
critic optimizer is the MSE of the single live output against that target
list, which depends only on the target networks (the detach of line 78). -/
theorem claim_C2 (cfg : DDPG.Config) (opt : DDPG.Opt)
    (sample : ℕ → List Transition)
    (aT : Actor) (cT : DDPG.Critic) (tr : Transition)
    (batch : List Transition) (c : DDPG.Critic) (it : ℕ) (s : DDPG.State) :
    DDPG.targetQ cfg aT cT tr =
      tr.reward + (1 - tr.done) * cfg.discount *
        DDPG.Critic.forward cT tr.next_state
          (Actor.forward cfg.max_action aT tr.next_state) ∧
    (tr.done = 1 → DDPG.targetQ cfg aT cT tr = tr.reward) ∧
    (tr.done = 0 → DDPG.targetQ cfg aT cT tr =
      tr.reward + cfg.discount *
        DDPG.Critic.forward cT tr.next_state
          (Actor.forward cfg.max_action aT tr.next_state)) ∧
    DDPG.criticLoss cfg aT cT batch c =
      mseLoss (batch.map fun t => DDPG.Critic.forward c t.state t.action)
        (batch.map (DDPG.targetQ cfg aT cT)) ∧
    (DDPG.trainIter cfg opt sample it s).critic =
      opt.criticStep s.critic
        (DDPG.criticLoss cfg s.actor_target s.critic_target (sample it)) := by
  refine ⟨rfl, ?_, ?_, rfl, rfl⟩
  · intro h; simp [DDPG.targetQ, h]
  · intro h; simp [DDPG.targetQ, h]

/-- C2 witness: a concrete terminal transition (d = 1) whose target value
collapses to its reward. -/
theorem claim_C2_witness :
    (Transition.mk [] [] 5 1 []).done = 1 ∧
      DDPG.targetQ (DDPG.Config.mk 1 (99 / 100) (1 / 1000))
        (Actor.mk [] [] [] [] [] []) (DDPG.Critic.mk [] [] [] [] [] 0)
        (Transition.mk [] [] 5 1 []) = (Transition.mk [] [] 5 1 []).reward :=
  ⟨rfl, (claim_C2 (DDPG.Config.mk 1 (99 / 100) (1 / 1000))
    (DDPG.Opt.mk (fun c _ => c) (fun a _ => a)) (fun _ => [])
    (Actor.mk [] [] [] [] [] []) (DDPG.Critic.mk [] [] [] [] [] 0)
    (Transition.mk [] [] 5 1 []) [] (DDPG.Critic.mk [] [] [] [] [] 0) 0
    (DDPG.init (Actor.mk [] [] [] [] [] []) (DDPG.Critic.mk [] [] [] [] [] 0))).2.1
    rfl⟩

/-- C6: for a freshly constructed engine of either variant, each target
network's parameters equal its live counterpart's, hence the target actor
and target critic produce the same outputs as the live networks on every
input. -/
theorem claim_C6 (a : Actor) (c3 : TD3.Critic) (cD : DDPG.Critic) (maxA : ℝ) :
    (TD3.init a c3).actor_target = (TD3.init a c3).actor ∧
    (TD3.init a c3).critic_target = (TD3.init a c3).critic ∧
    (DDPG.init a cD).actor_target = (DDPG.init a cD).actor ∧
    (DDPG.init a cD).critic_target = (DDPG.init a cD).critic ∧
    (∀ x, Actor.forward maxA (TD3.init a c3).actor_target x =
      Actor.forward maxA (TD3.init a c3).actor x) ∧
    (∀ x u, TD3.Critic.forward (TD3.init a c3).critic_target x u =
      TD3.Critic.forward (TD3.init a c3).critic x u) ∧
    (∀ x, Actor.forward maxA (DDPG.init a cD).actor_target x =
      Actor.forward maxA (DDPG.init a cD).actor x) ∧
    (∀ x u, DDPG.Critic.forward (DDPG.init a cD).critic_target x u =
      DDPG.Critic.forward (DDPG.init a cD).critic x u) :=
  ⟨rfl, rfl, rfl, rfl, fun _ => rfl, fun _ _ => rfl, fun _ => rfl, fun _ _ => rfl⟩

/-- C7: in both variants, the actor optimization step changes only the
live actor's parameters — the live critic (and both targets) are
identical before and after that phase — even though the live critic's
parameters appear inside the actor loss that the step minimizes. -/
theorem claim_C7 (cfg3 : TD3.Config) (opt3 : TD3.Opt)
    (b3 : List Transition) (s3 : TD3.State)
    (cfgD : DDPG.Config) (optD : DDPG.Opt)
    (bD : List Transition) (sD : DDPG.State) (a : Actor) :
    ((TD3.actorPhase cfg3 opt3 b3 s3).critic = s3.critic ∧
      (TD3.actorPhase cfg3 opt3 b3 s3).critic_target = s3.critic_target ∧
      (TD3.actorPhase cfg3 opt3 b3 s3).actor_target = s3.actor_target ∧
      (TD3.actorPhase cfg3 opt3 b3 s3).actor =
        opt3.actorStep s3.actor (TD3.actorLoss cfg3 s3.critic b3) ∧
      TD3.actorLoss cfg3 s3.critic b3 a =
        -(mean (b3.map fun tr =>
          TD3.Critic.Q1 s3.critic tr.state
            (Actor.forward cfg3.max_action a tr.state)))) ∧
    ((DDPG.actorPhase cfgD optD bD sD).critic = sD.critic ∧
      (DDPG.actorPhase cfgD optD bD sD).critic_target = sD.critic_target ∧
      (DDPG.actorPhase cfgD optD bD sD).actor_target = sD.actor_target ∧
      (DDPG.actorPhase cfgD optD bD sD).actor =
        optD.actorStep sD.actor (DDPG.actorLoss cfgD sD.critic bD) ∧
      DDPG.actorLoss cfgD sD.critic bD a =
        -(mean (bD.map fun tr =>
          DDPG.Critic.forward sD.critic tr.state
            (Actor.forward cfgD.max_action a tr.state)))) :=
  ⟨⟨rfl, rfl, rfl, rfl, rfl⟩, ⟨rfl, rfl, rfl, rfl, rfl⟩⟩

/-- C9: for either variant, saving a policy and loading it into a freshly
constructed engine of the same architecture yields select_action outputs
identical to the original engine's on every probe state (exactly equal in
the real-number semantics, hence within any floating-point tolerance). -/
theorem claim_C9 (cfg : TD3.Config) (e : TD3.State)
    (a2 : Actor) (c2 : TD3.Critic) (st : List ℝ)
    (cfgD : DDPG.Config) (eD : DDPG.State) (aD : Actor) (cD : DDPG.Critic) :
    TD3.select_action cfg (TD3.load (TD3.save e) (TD3.init a2 c2)) st =
      TD3.select_action cfg e st ∧
    DDPG.select_action cfgD (DDPG.load (DDPG.save eD) (DDPG.init aD cD)) st =
      DDPG.select_action cfgD eD st :=
  ⟨rfl, rfl⟩

/-- C5: one soft update with rate tau replaces each target parameter
entry by tau times the live entry plus (1 - tau) times the previous
target entry; tau = 1 makes the target equal the live parameters and
tau = 0 leaves the target unchanged; and in both variants' training
phases the target networks are only ever assigned this blend — the two
gradient phases never touch them. -/
theorem claim_C5 (tau : ℝ) (l t : List ℝ) (h : l.length = t.length) :
    (∀ i, i < l.length →
      (softUpdateVec tau l t).getD i 0 =
        tau * l.getD i 0 + (1 - tau) * t.getD i 0) ∧
    softUpdateVec 1 l t = l ∧
    softUpdateVec 0 l t = t ∧
    (∀ (cfg : TD3.Config) (s : TD3.State),
      (TD3.targetPhase cfg s).actor_target =
        Actor.softUpdate cfg.tau s.actor s.actor_target ∧
      (TD3.targetPhase cfg s).critic_target =
        TD3.Critic.softUpdate cfg.tau s.critic s.critic_target ∧
      (TD3.targetPhase cfg s).actor = s.actor ∧
      (TD3.targetPhase cfg s).critic = s.critic) ∧
    (∀ (cfg : DDPG.Config) (s : DDPG.State),
      (DDPG.targetPhase cfg s).actor_target =
        Actor.softUpdate cfg.tau s.actor s.actor_target ∧
      (DDPG.targetPhase cfg s).critic_target =
        DDPG.Critic.softUpdate cfg.tau s.critic s.critic_target) ∧
    (∀ (cfg : TD3.Config) (opt : TD3.Opt) (b : List Transition)
        (nv : List (List ℝ)) (s : TD3.State),
      (TD3.criticPhase cfg opt b nv s).actor_target = s.actor_target ∧
      (TD3.criticPhase cfg opt b nv s).critic_target = s.critic_target ∧
      (TD3.actorPhase cfg opt b s).actor_target = s.actor_target ∧
      (TD3.actorPhase cfg opt b s).critic_target = s.critic_target) ∧
    (∀ (cfg : DDPG.Config) (opt : DDPG.Opt) (b : List Transition)
        (s : DDPG.State),
      (DDPG.criticPhase cfg opt b s).actor_target = s.actor_target ∧
      (DDPG.criticPhase cfg opt b s).critic_target = s.critic_target ∧
      (DDPG.actorPhase cfg opt b s).actor_target = s.actor_target ∧
      (DDPG.actorPhase cfg opt b s).critic_target = s.critic_target) := by
  refine ⟨?_, softUpdateVec_one l t h, softUpdateVec_zero l t h,
    fun _ _ => ⟨rfl, rfl, rfl, rfl⟩, fun _ _ => ⟨rfl, rfl⟩,
    fun _ _ _ _ _ => ⟨rfl, rfl, rfl, rfl⟩, fun _ _ _ _ => ⟨rfl, rfl, rfl, rfl⟩⟩
  intro i hi
  exact zipWith_getD _ l t i hi (h ▸ hi)

/-- C5 witness: the blend law, and the rate-1 case, evaluated on concrete
parameter vectors. -/
theorem claim_C5_witness :
    ([2, 4] : List ℝ).length = ([6, 8] : List ℝ).length ∧
    (softUpdateVec (1 / 2) [2, 4] [6, 8]).getD 0 0 =
      (1 / 2) * ([2, 4] : List ℝ).getD 0 0 +
        (1 - 1 / 2) * ([6, 8] : List ℝ).getD 0 0 ∧
    softUpdateVec 1 [2, 4] [6, 8] = ([2, 4] : List ℝ) := by
  have h := claim_C5 (1 / 2) [2, 4] [6, 8] (by simp)
  exact ⟨by simp, h.1 0 (by simp), h.2.1⟩

/-- C8: every component of the action returned by select_action lies in
the closed interval from -max_action to max_action, in both variants, for
arbitrary network parameters (components are read with default 0, which
also lies in the interval). -/
theorem claim_C8 (cfg : TD3.Config) (cfgD : DDPG.Config)
    (h3 : 0 ≤ cfg.max_action) (hD : 0 ≤ cfgD.max_action)
    (s3 : TD3.State) (sD : DDPG.State) (st : List ℝ) (i : ℕ) :
    (-cfg.max_action ≤ (TD3.select_action cfg s3 st).getD i 0 ∧
      (TD3.select_action cfg s3 st).getD i 0 ≤ cfg.max_action) ∧
    (-cfgD.max_action ≤ (DDPG.select_action cfgD sD st).getD i 0 ∧
      (DDPG.select_action cfgD sD st).getD i 0 ≤ cfgD.max_action) := by
  have h1 := forward_getD_abs_le cfg.max_action h3 s3.actor st i
  have h2 := forward_getD_abs_le cfgD.max_action hD sD.actor st i
  rw [abs_le] at h1 h2
  exact ⟨h1, h2⟩

/-- C8 witness: the bound evaluated on the concrete fresh engines at the
empty probe state. -/
theorem claim_C8_witness :
    0 ≤ cfg0.max_action ∧ 0 ≤ cfgD0.max_action ∧
    ((-cfg0.max_action ≤ (TD3.select_action cfg0 s0 []).getD 0 0 ∧
        (TD3.select_action cfg0 s0 []).getD 0 0 ≤ cfg0.max_action) ∧
      (-cfgD0.max_action ≤ (DDPG.select_action cfgD0 sD0 []).getD 0 0 ∧
        (DDPG.select_action cfgD0 sD0 []).getD 0 0 ≤ cfgD0.max_action)) :=
  ⟨by norm_num [cfg0], by norm_num [cfgD0],
    claim_C8 cfg0 cfgD0 (by norm_num [cfg0]) (by norm_num [cfgD0]) s0 sD0 [] 0⟩

/-- C3: in the twin-critic variant with policy-update frequency k, within
one train call the actor parameters change exactly on the iterations
whose 0-based loop index is a multiple of k — and on those iterations
only — while the critic parameters change on every iteration; on a
skipped iteration the actor and both target networks are untouched.  The
number of multiples of k among the n loop indices is the rounded-up
quotient of n by k (the ceil branch of the claim's convention choice).
The hypotheses say each optimizer step strictly changes the parameters it
owns, the meaning of a parameter change under an abstract optimizer. -/
theorem claim_C3 (cfg : TD3.Config) (opt : TD3.Opt)
    (sample : ℕ → List Transition × List (List ℝ)) (s : TD3.State)
    (hA : ∀ a f, opt.actorStep a f ≠ a)
    (hC : ∀ c f, opt.criticStep c f ≠ c)
    (hk : 1 ≤ cfg.policy_freq) :
    (∀ it : ℕ,
      ((TD3.train cfg opt sample (it + 1) s).actor ≠
          (TD3.train cfg opt sample it s).actor ↔
        it % cfg.policy_freq = 0) ∧
      (TD3.train cfg opt sample (it + 1) s).critic ≠
        (TD3.train cfg opt sample it s).critic ∧
      (¬ it % cfg.policy_freq = 0 →
        (TD3.train cfg opt sample (it + 1) s).actor =
          (TD3.train cfg opt sample it s).actor ∧
        (TD3.train cfg opt sample (it + 1) s).actor_target =
          (TD3.train cfg opt sample it s).actor_target ∧
        (TD3.train cfg opt sample (it + 1) s).critic_target =
          (TD3.train cfg opt sample it s).critic_target)) ∧
    ∀ n : ℕ, (List.range n).countP (fun it => it % cfg.policy_freq == 0) =
      (n + cfg.policy_freq - 1) / cfg.policy_freq := by
  constructor
  · intro it
    have hsucc : TD3.train cfg opt sample (it + 1) s =
        TD3.trainIter cfg opt sample it (TD3.train cfg opt sample it s) := by
      unfold TD3.train
      rw [trainFrom_succ]
      norm_num
    by_cases h : it % cfg.policy_freq = 0
    · rw [hsucc, trainIter_active cfg opt sample it _ h]
      refine ⟨⟨fun _ => h, fun _ => ?_⟩, ?_, fun hno => absurd h hno⟩
      · simpa [TD3.targetPhase, TD3.actorPhase, TD3.criticPhase] using
          hA (TD3.train cfg opt sample it s).actor _
      · simpa [TD3.targetPhase, TD3.actorPhase, TD3.criticPhase] using
          hC (TD3.train cfg opt sample it s).critic _
    · rw [hsucc, trainIter_skip cfg opt sample it _ h]
      refine ⟨⟨fun hne => absurd rfl hne, fun hyes => absurd hyes h⟩, ?_,
        fun _ => ⟨rfl, rfl, rfl⟩⟩
      simpa [TD3.criticPhase] using
        hC (TD3.train cfg opt sample it s).critic _
  · exact countP_mod_eq cfg.policy_freq hk

/-- C3 witness: with strictly effective optimizer steps, frequency 2,
three iterations gate the actor update on two loop indices, and the very
first iteration changes the critic. -/
theorem claim_C3_witness :
    (List.range 3).countP (fun it => it % cfg0.policy_freq == 0) =
      (3 + cfg0.policy_freq - 1) / cfg0.policy_freq ∧
    (TD3.train cfg0 optE sample0 1 s0).critic ≠
      (TD3.train cfg0 optE sample0 0 s0).critic := by
  have h := claim_C3 cfg0 optE sample0 s0
    (fun a f hne => by simpa [optE] using congrArg (fun p => p.l1b.length) hne)
    (fun c f hne => by simpa [optE] using congrArg (fun p => p.l1b.length) hne)
    (by norm_num [cfg0])
  exact ⟨h.2 3, (h.1 0).2.1⟩

/-- C4 counterexample: the claim says the gate's iteration count persists
across train calls.  On the code, two successive 1-iteration train calls
with policy_freq 2 both run the actor update (the visible actor step
prepends a bias entry, so the bias has grown twice), whereas the spec's
persistent-counter model skips the actor update on the second call (bias
grown once) because its counter is then 1 and 1 % 2 is not 0; the two
resulting live actors differ. -/
theorem claim_C4_counterexample :
    (TD3.train cfg0 optP sample0 1
      (TD3.train cfg0 optP sample0 1 s0)).actor.l1b.length = 2 ∧
    ((TD3.trainPersistentCounter cfg0 optP sample0 1
      (TD3.trainPersistentCounter cfg0 optP sample0 1
        (s0, 0))).1).actor.l1b.length = 1 ∧
    (TD3.train cfg0 optP sample0 1
        (TD3.train cfg0 optP sample0 1 s0)).actor ≠
      ((TD3.trainPersistentCounter cfg0 optP sample0 1
        (TD3.trainPersistentCounter cfg0 optP sample0 1 (s0, 0))).1).actor := by
  have e1 : (TD3.train cfg0 optP sample0 1
      (TD3.train cfg0 optP sample0 1 s0)).actor.l1b.length = 2 := rfl
  have e2 : ((TD3.trainPersistentCounter cfg0 optP sample0 1
      (TD3.trainPersistentCounter cfg0 optP sample0 1
        (s0, 0))).1).actor.l1b.length = 1 := rfl
  refine ⟨e1, e2, fun hact => ?_⟩
  have := congrArg (fun a : Actor => a.l1b.length) hact
  rw [show (fun a : Actor => a.l1b.length)
      (TD3.train cfg0 optP sample0 1
        (TD3.train cfg0 optP sample0 1 s0)).actor = 2 from e1] at this
  rw [show (fun a : Actor => a.l1b.length)
      ((TD3.trainPersistentCounter cfg0 optP sample0 1
        (TD3.trainPersistentCounter cfg0 optP sample0 1
          (s0, 0))).1).actor = 1 from e2] at this
  exact absurd this (by norm_num)

/-- C4 (amended): no iteration counter persists across train calls: the
delayed-update gate reads a loop index local to each call, so every train
call — in particular the second of any two successive calls — behaves
exactly as the persistent-counter model does when its counter is reset to
zero at the start of the call. -/
theorem claim_C4 (cfg : TD3.Config) (opt : TD3.Opt)
    (sample : ℕ → List Transition × List (List ℝ))
    (n₁ n₂ : ℕ) (s : TD3.State) :
    TD3.train cfg opt sample n₂ (TD3.train cfg opt sample n₁ s) =
      (TD3.trainPersistentCounter cfg opt sample n₂
        ((TD3.trainPersistentCounter cfg opt sample n₁ (s, 0)).1, 0)).1 :=
  rfl

/-- C10: for any train call with at least one iteration and any
policy_freq at least 1, the actor update and target soft-update run on
the first loop iteration of the call, because the gate compares the
loop-local index with 0 and 0 % policy_freq = 0; consequently a
1-iteration train call performs the full critic-actor-target update, so a
sequence of such calls updates the actor and targets on every call. -/
theorem claim_C10 (cfg : TD3.Config) (opt : TD3.Opt)
    (sample : ℕ → List Transition × List (List ℝ)) (s : TD3.State)
    (hk : 1 ≤ cfg.policy_freq) (n : ℕ) (hn : 1 ≤ n) :
    0 % cfg.policy_freq = 0 ∧
    TD3.train cfg opt sample n s =
      TD3.trainFrom cfg opt sample 1 (n - 1)
        (TD3.targetPhase cfg (TD3.actorPhase cfg opt (sample 0).1
          (TD3.criticPhase cfg opt (sample 0).1 (sample 0).2 s))) ∧
    TD3.train cfg opt sample 1 s =
      TD3.targetPhase cfg (TD3.actorPhase cfg opt (sample 0).1
        (TD3.criticPhase cfg opt (sample 0).1 (sample 0).2 s)) := by
  have hgate : TD3.trainIter cfg opt sample 0 s =
      TD3.targetPhase cfg (TD3.actorPhase cfg opt (sample 0).1
        (TD3.criticPhase cfg opt (sample 0).1 (sample 0).2 s)) :=
    trainIter_active cfg opt sample 0 s (Nat.zero_mod _)
  refine ⟨Nat.zero_mod _, ?_, ?_⟩
  · obtain ⟨m, rfl⟩ : ∃ m, n = m + 1 := ⟨n - 1, by omega⟩
    show TD3.trainFrom cfg opt sample 0 (m + 1) s = _
    rw [show m + 1 - 1 = m by omega,
      show TD3.trainFrom cfg opt sample 0 (m + 1) s =
        TD3.trainFrom cfg opt sample 1 m
          (TD3.trainIter cfg opt sample 0 s) from rfl, hgate]
  · show TD3.trainFrom cfg opt sample 0 1 s = _
    rw [show TD3.trainFrom cfg opt sample 0 1 s =
      TD3.trainIter cfg opt sample 0 s from rfl, hgate]

/-- C10 witness: on the concrete fresh engine, a 1-iteration train call
with policy_freq 2 is exactly one full critic-actor-target update. -/
theorem claim_C10_witness :
    1 ≤ cfg0.policy_freq ∧ (1 : ℕ) ≤ 1 ∧
    TD3.train cfg0 optP sample0 1 s0 =
      TD3.targetPhase cfg0 (TD3.actorPhase cfg0 optP (sample0 0).1
        (TD3.criticPhase cfg0 optP (sample0 0).1 (sample0 0).2 s0)) :=
  ⟨by norm_num [cfg0], le_refl 1,
    (claim_C10 cfg0 optP sample0 s0 (by norm_num [cfg0]) 1 (le_refl 1)).2.2⟩

end RLImpl

end
